import Mathlib

/-!
A shallow embedding of the analytics pipeline of `src/streamlit_app.py`:
filter (lines 68-73), time bucketing and aggregation (lines 76-89), sort
(line 91), the empty-result guard (lines 93-95), KPIs (lines 98-102), the
location label and restriction (lines 106-111), the per-metric pivots
(lines 115-122), the CSV export (lines 9-11, 124-130) and the sidebar's
bounds resolution (lines 24-32).

Modelling conventions: timestamps are seconds since the Unix epoch in UTC
(so a calendar-day boundary is a multiple of 86400), numeric measurements
are rationals, SQL NULL and pandas NaT are `Option.none`, data frames are
lists of rows.  Snowflake leaves the row order of a `group_by` result
unspecified; the model fixes one deterministic order for it, `List.dedup`
of the key list, and sorts with a stable sort, which refines the
warehouse's freedom.  pandas `pivot` additionally orders its column labels
lexicographically; the model keeps the columns in `List.dedup` order,
which no claim below depends on.
-/

/-- One row of the `telemetry_curated` table (line 17). -/
structure Reading where
  ts : Nat
  site : String
  room : String
  sensor_id : String
  temp_c : Rat
  humidity : Rat
deriving DecidableEq, Repr

/-- The granularity selector of line 50: `["minute", "hour", "day"]`. -/
inductive Granularity where
  | minute
  | hour
  | day
deriving DecidableEq, Repr

/-- The sidebar's filter settings: the composed timestamp range of lines
64-65, the selected site and room lists of lines 58 and 61, and the
granularity of line 50. -/
structure FilterCriteria where
  start_dt : Nat
  end_dt : Nat
  sel_sites : List String
  sel_rooms : List String
  granularity : Granularity

/-- Line 68: `df = base_df.filter((col("ts") >= lit(start_dt)) & (col("ts") <= lit(end_dt)))`. -/
def tsRangeFilter (c : FilterCriteria) (base_df : List Reading) : List Reading :=
  base_df.filter fun r => c.start_dt ≤ r.ts && r.ts ≤ c.end_dt

/-- Lines 70-71: `if sel_sites: df = df.filter(col("site").isin(...))`; an
empty selection (python falsy) leaves the frame unfiltered. -/
def siteFilter (c : FilterCriteria) (df : List Reading) : List Reading :=
  if c.sel_sites.isEmpty then df else df.filter fun r => r.site ∈ c.sel_sites

/-- Lines 72-73: `if sel_rooms: df = df.filter(col("room").isin(...))`. -/
def roomFilter (c : FilterCriteria) (df : List Reading) : List Reading :=
  if c.sel_rooms.isEmpty then df else df.filter fun r => r.room ∈ c.sel_rooms

/-- The composed filter of lines 68-73. -/
def filteredReadings (c : FilterCriteria) (base_df : List Reading) : List Reading :=
  roomFilter c (siteFilter c (tsRangeFilter c base_df))

/-- Width in seconds of one bucket of each granularity. -/
def granSeconds : Granularity → Nat
  | .minute => 60
  | .hour => 3600
  | .day => 86400

/-- Line 77: `DATE_TRUNC('minute'|'hour'|'day', ts)`, truncation of a UTC
timestamp to the enclosing granularity boundary (for `day`, the calendar-day
boundary, a multiple of 86400 seconds in epoch time). -/
def date_trunc (g : Granularity) (t : Nat) : Nat :=
  t - t % granSeconds g

/-- The grouping key of lines 84: `(ts_bucket, site, room)`. -/
def readingKey (g : Granularity) (r : Reading) : Nat × String × String :=
  (date_trunc g r.ts, r.site, r.room)

/-- The distinct grouping keys of a frame.  Snowflake does not specify the
row order of a `group_by` result; the model fixes `List.dedup` order. -/
def groupKeys (g : Granularity) (df : List Reading) : List (Nat × String × String) :=
  (df.map (readingKey g)).dedup

/-- The rows of one group. -/
def groupMembers (g : Granularity) (df : List Reading) (k : Nat × String × String) :
    List Reading :=
  df.filter fun r => readingKey g r = k

/-- `AVG` over a column (lines 86-87); groups are never empty, so the `[]`
case of `Rat` division by zero never arises in the pipeline. -/
def listMean (xs : List Rat) : Rat :=
  xs.sum / (xs.length : Rat)

/-- One aggregated row (lines 84-88): the grouping key with the two column
averages. -/
structure AggRow where
  ts_bucket : Nat
  site : String
  room : String
  avg_temp_c : Rat
  avg_humidity : Rat
deriving DecidableEq, Repr

/-- The grouping key of an aggregated row. -/
def aggKey (a : AggRow) : Nat × String × String :=
  (a.ts_bucket, a.site, a.room)

/-- The aggregated row of one group (lines 84-88). -/
def aggRowFor (g : Granularity) (df : List Reading) (k : Nat × String × String) :
    AggRow :=
  { ts_bucket := k.1
    site := k.2.1
    room := k.2.2
    avg_temp_c := listMean ((groupMembers g df k).map Reading.temp_c)
    avg_humidity := listMean ((groupMembers g df k).map Reading.humidity) }

/-- Lines 78-89: `df.group_by("ts_bucket", "site", "room").agg(AVG, AVG)`. -/
def df_buck (g : Granularity) (df : List Reading) : List AggRow :=
  (groupKeys g df).map (aggRowFor g df)

/-- The sort key of line 91: ascending `ts_bucket` only. -/
def bucketLE (a b : AggRow) : Prop :=
  a.ts_bucket ≤ b.ts_bucket

instance : DecidableRel bucketLE :=
  fun a b => Nat.decLe a.ts_bucket b.ts_bucket

instance : IsTotal AggRow bucketLE :=
  ⟨fun a b => Nat.le_total a.ts_bucket b.ts_bucket⟩

instance : IsTrans AggRow bucketLE :=
  ⟨fun _ _ _ hab hbc => Nat.le_trans hab hbc⟩

/-- Line 91: `pdf = df_buck.sort("ts_bucket").to_pandas()`, modelled with a
stable sort on the single key `ts_bucket`. -/
def pdfOf (g : Granularity) (df : List Reading) : List AggRow :=
  (df_buck g df).insertionSort bucketLE

/-- The aggregated frame the app computes for given criteria (lines 68-91). -/
def appPdf (base_df : List Reading) (c : FilterCriteria) : List AggRow :=
  pdfOf c.granularity (filteredReadings c base_df)

/-- pandas `Series.max()` on a column (line 101); the `[]` case is behind the
emptiness guard of lines 93-95 and never reached by the app. -/
def colMax (xs : List Rat) : Rat :=
  match xs with
  | [] => 0
  | x :: rest => rest.foldl max x

/-- pandas `Series.min()` on a column (line 102). -/
def colMin (xs : List Rat) : Rat :=
  match xs with
  | [] => 0
  | x :: rest => rest.foldl min x

/-- The four summary figures of lines 98-102, computed from the full
aggregated frame `pdf`, before any location restriction. -/
structure KPI where
  avg_temp : Rat
  avg_humidity : Rat
  max_temp : Rat
  min_temp : Rat
deriving DecidableEq, Repr

/-- Lines 99-102: mean, mean, max, min over the per-row averages. -/
def kpisOf (pdf : List AggRow) : KPI :=
  { avg_temp := listMean (pdf.map AggRow.avg_temp_c)
    avg_humidity := listMean (pdf.map AggRow.avg_humidity)
    max_temp := colMax (pdf.map AggRow.avg_temp_c)
    min_temp := colMin (pdf.map AggRow.avg_temp_c) }

/-- Line 106: `pdf["location"] = pdf["SITE"].astype(str) + " / " + pdf["ROOM"]`. -/
def AggRow.location (a : AggRow) : String :=
  a.site ++ " / " ++ a.room

/-- Line 111: `plot_df = pdf[pdf["location"].isin(sel_locs)]`. -/
def plotDfOf (pdf : List AggRow) (sel_locs : List String) : List AggRow :=
  pdf.filter fun a => a.location ∈ sel_locs

/-- The `(index, column)` key list of a pivot; pandas `pivot` raises when it
holds a duplicate. -/
def pivotKeys (rows : List AggRow) : List (Nat × String) :=
  rows.map fun a => (a.ts_bucket, a.location)

/-- The pivot's index: the distinct bucket timestamps, ascending (pandas
`pivot` plus the `.sort_index()` of lines 116 and 121). -/
def pivotIndex (rows : List AggRow) : List Nat :=
  ((rows.map AggRow.ts_bucket).dedup).insertionSort (· ≤ ·)

/-- The pivot's columns: the distinct location labels of the frame. -/
def pivotCols (rows : List AggRow) : List String :=
  (rows.map AggRow.location).dedup

/-- One cell of the wide table: the metric of the unique row with that
bucket and location, or an empty (NaN) cell when there is none. -/
def pivotCell (rows : List AggRow) (value : AggRow → Rat) (b : Nat) (c : String) :
    Option Rat :=
  (rows.find? fun a => a.ts_bucket = b && a.location = c).map value

/-- The wide table as a list of index rows, each carrying one cell per
column. -/
def wideOf (rows : List AggRow) (value : AggRow → Rat) :
    List (Nat × List (Option Rat)) :=
  (pivotIndex rows).map fun b => (b, (pivotCols rows).map fun c => pivotCell rows value b c)

/-- pandas `plot_df.pivot(index, columns, values)` (lines 116 and 121):
`none` models the `ValueError` pandas raises when two rows share an
`(index, column)` pair. -/
def pivot (rows : List AggRow) (value : AggRow → Rat) :
    Option (List (Nat × List (Option Rat))) :=
  if (pivotKeys rows).Nodup then some (wideOf rows value) else none

/-- Line 116: the temperature wide table. -/
def temp_wide (plot_df : List AggRow) : Option (List (Nat × List (Option Rat))) :=
  pivot plot_df AggRow.avg_temp_c

/-- Line 121: the humidity wide table. -/
def hum_wide (plot_df : List AggRow) : Option (List (Nat × List (Option Rat))) :=
  pivot plot_df AggRow.avg_humidity

/-- One CSV line of the export: the columns of `plot_df` in frame order. -/
def csvRow (a : AggRow) : String :=
  toString a.ts_bucket ++ "," ++ a.site ++ "," ++ a.room ++ ","
    ++ toString a.avg_temp_c ++ "," ++ toString a.avg_humidity ++ "," ++ a.location

/-- Lines 9-11: `df.to_csv(index=False)`, a header line then one line per
row. -/
def convert_for_download (rows : List AggRow) : String :=
  "TS_BUCKET,SITE,ROOM,AVG_TEMP_C,AVG_HUMIDITY,location" ++ "\n"
    ++ String.join (rows.map fun a => csvRow a ++ "\n")

/-- What the presentation step of lines 98-130 delivers when there is data:
the KPIs (from the full `pdf`), the location-restricted frame, and the CSV
bytes offered for download. -/
structure Presentation where
  kpis : KPI
  plot_df : List AggRow
  csv : String
deriving Repr

/-- Lines 93-130: the `pdf.empty` guard stops the cycle with the "No data
found" message (modelled `none`) before any KPI, restriction or export is
computed; otherwise the presentation step runs. -/
def runApp (base_df : List Reading) (c : FilterCriteria) (sel_locs : List String) :
    Option Presentation :=
  if (appPdf base_df c).isEmpty then none
  else
    some
      { kpis := kpisOf (appPdf base_df c)
        plot_df := plotDfOf (appPdf base_df c) sel_locs
        csv := convert_for_download (plotDfOf (appPdf base_df c) sel_locs) }

/-- Lines 24-29: `SELECT MIN(ts), MAX(ts) FROM telemetry_curated`.  An
aggregate query without `GROUP BY` returns exactly one row; over an empty
table both aggregates are NULL (modelled `none`). -/
def boundsRows (base_df : List Reading) : List (Option Nat × Option Nat) :=
  [((base_df.map Reading.ts).min?, (base_df.map Reading.ts).max?)]

/-- Line 31: `min_ts = pd.to_datetime(bounds["MIN_TS"][0]) if not bounds.empty
else pd.Nat.utcnow() - pd.Timedelta(days=1)`; `pd.to_datetime` of SQL
NULL is NaT, modelled `none`. -/
def min_ts (base_df : List Reading) (now : Nat) : Option Nat :=
  match boundsRows base_df with
  | [] => some (now - 86400)
  | row :: _ => row.1

/-- Line 32: `max_ts = pd.to_datetime(bounds["MAX_TS"][0]) if not bounds.empty
else pd.Nat.utcnow()`. -/
def max_ts (base_df : List Reading) (now : Nat) : Option Nat :=
  match boundsRows base_df with
  | [] => some now
  | row :: _ => row.2

/-- C6: for every granularity and timestamp, the bucket is at most the
timestamp, bucketing is idempotent, and the bucket is the largest
granularity-aligned instant (multiple of the bucket width, hence for `day` a
calendar-day boundary in UTC) not exceeding the timestamp. -/
theorem date_trunc_le_idem_aligned (g : Granularity) (t : Nat) :
    date_trunc g t ≤ t
    ∧ date_trunc g (date_trunc g t) = date_trunc g t
    ∧ date_trunc g t % granSeconds g = 0
    ∧ ∀ s, s % granSeconds g = 0 → s ≤ t → s ≤ date_trunc g t := by
  cases g <;>
    simp only [date_trunc, granSeconds] <;>
    exact ⟨by omega, by omega, by omega, fun s hs hst => by omega⟩

/-- C7: over an empty reading set the code does not substitute the intended
default window: the `bounds.empty` fallback of lines 31-32 is unreachable
(the MIN/MAX aggregate always returns one row), so both bounds come out NaT
(`none`), not the documented "last 24 hours up to now" defaults. -/
theorem bounds_empty_dataset_is_nat (now : Nat) :
    min_ts [] now = none ∧ max_ts [] now = none
    ∧ min_ts [] now ≠ some (now - 86400) ∧ max_ts [] now ≠ some now := by
  refine ⟨rfl, rfl, ?_, ?_⟩ <;> simp [min_ts, max_ts, boundsRows]

/-- C4: the pipeline short-circuits with the "no data" signal exactly when
the filtered-and-aggregated frame is empty; in that case no KPI, location
restriction, pivot or export is computed for the cycle. -/
theorem empty_agg_no_data (base_df : List Reading) (c : FilterCriteria)
    (sel_locs : List String) :
    runApp base_df c sel_locs = none ↔ appPdf base_df c = [] := by
  unfold runApp
  rcases h : appPdf base_df c with _ | ⟨a, rest⟩ <;> simp [h]

/-- What one render cycle's warehouse round trip may deliver for line 91's
`to_pandas()`: Snowflake computes the grouped rows of lines 78-89 but leaves
their order unspecified, so a run receives some permutation of
`df_buck g df`.  Cross-run behavior is stated over all such deliveries; the
fixed `List.dedup` order of `groupKeys` is only the one representative the
order-insensitive theorems above compute with. -/
def deliveredGroups (g : Granularity) (df : List Reading) (rows : List AggRow) : Prop :=
  rows.Perm (df_buck g df)

/-- Line 91's sort applied to what one run's warehouse delivered. -/
def pdfFromRows (rows : List AggRow) : List AggRow :=
  rows.insertionSort bucketLE

/-- The CSV bytes one run exports (lines 91, 111, 124-130) given the
warehouse-delivered grouped rows. -/
def csvFromRows (rows : List AggRow) (sel_locs : List String) : String :=
  convert_for_download (plotDfOf (pdfFromRows rows) sel_locs)

/-- A one-reading data set used to instantiate the run-level theorems. -/
def exData : List Reading :=
  [⟨0, "A", "101", "s1", 20, 50⟩]

/-- Criteria passing everything in `exData` at minute granularity. -/
def exCrit : FilterCriteria :=
  ⟨0, 100, [], [], .minute⟩

/-- C1: a reading passes the composed filter of lines 68-73 iff it is a base
row whose timestamp lies in the inclusive `[start_dt, end_dt]` range, its
site passes the empty-selection-is-pass-all site test, and its room the room
test; with both selections empty the predicate is the range test alone. -/
theorem filter_pass_iff (c : FilterCriteria) (base_df : List Reading) (r : Reading) :
    r ∈ filteredReadings c base_df ↔
      r ∈ base_df ∧ (c.start_dt ≤ r.ts ∧ r.ts ≤ c.end_dt)
        ∧ (c.sel_sites = [] ∨ r.site ∈ c.sel_sites)
        ∧ (c.sel_rooms = [] ∨ r.room ∈ c.sel_rooms) := by
  unfold filteredReadings roomFilter siteFilter tsRangeFilter
  rcases hs : c.sel_sites with _ | ⟨s, ss⟩ <;>
    rcases hr : c.sel_rooms with _ | ⟨q, qs⟩ <;>
    simp [List.mem_filter, and_assoc] <;> tauto

/-- The key column of the aggregated frame is exactly the distinct-key list
of the grouping. -/
theorem df_buck_keys (g : Granularity) (df : List Reading) :
    (df_buck g df).map aggKey = groupKeys g df := by
  unfold df_buck
  rw [List.map_map]
  have h : ∀ k ∈ groupKeys g df, (aggKey ∘ aggRowFor g df) k = k := fun k _ => rfl
  rw [List.map_congr_left h]
  simp

/-- Scenario A of the spec: readings at 08:00 and 08:30 UTC (epoch seconds
28800 and 30600) for site A, room 101, temperatures 20.0/22.0, humidities
50/52. -/
def scenarioA : List Reading :=
  [⟨28800, "A", "101", "s1", 20, 50⟩, ⟨30600, "A", "101", "s2", 22, 52⟩]

/-- C2: the aggregation emits exactly one row per distinct
`(bucket, site, room)` group — the key column repeats no key and holds
exactly the keys of the input readings — and each row's two values are the
arithmetic means over that group's members; on Scenario A at granularity
`hour` it yields the single row (28800, A, 101, 21, 51). -/
theorem df_buck_one_row_per_group (g : Granularity) (df : List Reading) :
    ((df_buck g df).map aggKey).Nodup
    ∧ (∀ k, k ∈ (df_buck g df).map aggKey ↔ ∃ r ∈ df, readingKey g r = k)
    ∧ (∀ a ∈ df_buck g df,
        groupMembers g df (aggKey a) ≠ []
        ∧ a.avg_temp_c = listMean ((groupMembers g df (aggKey a)).map Reading.temp_c)
        ∧ a.avg_humidity = listMean ((groupMembers g df (aggKey a)).map Reading.humidity))
    ∧ df_buck .hour scenarioA = [⟨28800, "A", "101", 21, 51⟩] := by
  refine ⟨?_, ?_, ?_, ?_⟩
  · rw [df_buck_keys]; exact List.nodup_dedup _
  · intro k
    rw [df_buck_keys]
    unfold groupKeys
    rw [List.mem_dedup, List.mem_map]
  · intro a ha
    unfold df_buck at ha
    rw [List.mem_map] at ha
    obtain ⟨k, hk, rfl⟩ := ha
    have hke : aggKey (aggRowFor g df k) = k := rfl
    rw [hke]
    refine ⟨?_, rfl, rfl⟩
    unfold groupKeys at hk
    rw [List.mem_dedup, List.mem_map] at hk
    obtain ⟨r, hr, hrk⟩ := hk
    have : r ∈ groupMembers g df k := by
      unfold groupMembers
      rw [List.mem_filter]
      exact ⟨hr, by simp [hrk]⟩
    exact List.ne_nil_of_mem this
  · have hk : groupKeys .hour scenarioA = [(28800, "A", "101")] := by decide
    have hm : groupMembers .hour scenarioA (28800, "A", "101") = scenarioA := by decide
    unfold df_buck
    rw [hk]
    simp only [List.map_cons, List.map_nil]
    unfold aggRowFor
    rw [hm]
    simp [scenarioA, listMean, AggRow.mk.injEq]
    norm_num

/-- C8 (amended): the delivered aggregate rows are sorted ascending by
bucket timestamp — `bucketLE` is the single sort key of line 91 — and are a
permutation of the grouped rows; no site/room tie-break is applied. -/
theorem pdf_sorted_by_bucket (g : Granularity) (df : List Reading) :
    List.Sorted bucketLE (pdfOf g df) ∧ (pdfOf g df).Perm (df_buck g df) :=
  ⟨List.sorted_insertionSort bucketLE (df_buck g df),
    List.perm_insertionSort bucketLE (df_buck g df)⟩

/-- Two readings in the same hour bucket whose grouped order puts site "B"
first. -/
def exTie : List Reading :=
  [⟨100, "B", "1", "s1", 1, 1⟩, ⟨200, "A", "1", "s2", 2, 2⟩]

/-- The delivery order claimed by C8: ascending bucket timestamp with ties
broken by site and then by room (string order, written on character lists,
which agrees with `String.lt_iff_toList_lt` and `String.le_iff_toList_le`). -/
def siteRoomTieOrder (a b : AggRow) : Prop :=
  a.ts_bucket < b.ts_bucket
    ∨ (a.ts_bucket = b.ts_bucket
        ∧ (a.site.toList < b.site.toList
            ∨ (a.site = b.site ∧ a.room.toList ≤ b.room.toList)))

instance : DecidableRel siteRoomTieOrder := fun a b => by
  unfold siteRoomTieOrder
  infer_instance

/-- C8 counterexample: on `exTie` at granularity `hour` both delivered rows
share bucket 0 yet the site "B" row precedes the site "A" row, so the
delivered order does not break bucket ties by site and room. -/
theorem sort_no_site_tiebreak :
    (pdfOf .hour exTie).map AggRow.ts_bucket = [0, 0]
    ∧ (pdfOf .hour exTie).map AggRow.site = ["B", "A"]
    ∧ ¬ List.Pairwise siteRoomTieOrder (pdfOf .hour exTie) := by
  refine ⟨by decide, by decide, by decide⟩

/-- C9 (amended): across any two render cycles over unchanged data and
identical criteria — each receiving the grouped rows in some warehouse
order — the delivered frames are permutations of each other (the same
aggregate row multiset), each sorted ascending by bucket timestamp; and the
rows arrive in the same order with byte-identical CSV whenever the
warehouse delivers the grouped rows in the same order.  Line 91 fixes no
more than this: it sorts on `ts_bucket` alone. -/
theorem pipeline_deterministic_up_to_tie_order (g : Granularity) (df : List Reading)
    (o₁ o₂ : List AggRow) (h₁ : deliveredGroups g df o₁) (h₂ : deliveredGroups g df o₂)
    (sel_locs : List String) :
    (pdfFromRows o₁).Perm (pdfFromRows o₂)
    ∧ List.Sorted bucketLE (pdfFromRows o₁)
    ∧ List.Sorted bucketLE (pdfFromRows o₂)
    ∧ (o₁ = o₂ →
        pdfFromRows o₁ = pdfFromRows o₂ ∧ csvFromRows o₁ sel_locs = csvFromRows o₂ sel_locs) := by
  refine ⟨?_, ?_, ?_, ?_⟩
  · exact ((List.perm_insertionSort bucketLE o₁).trans (h₁.trans h₂.symm)).trans
      (List.perm_insertionSort bucketLE o₂).symm
  · exact List.sorted_insertionSort bucketLE o₁
  · exact List.sorted_insertionSort bucketLE o₂
  · intro he
    subst he
    exact ⟨rfl, rfl⟩

theorem pipeline_deterministic_up_to_tie_order_witness :
    (pdfFromRows (df_buck .hour exTie)).Perm (pdfFromRows ((df_buck .hour exTie).reverse))
    ∧ List.Sorted bucketLE (pdfFromRows (df_buck .hour exTie))
    ∧ List.Sorted bucketLE (pdfFromRows ((df_buck .hour exTie).reverse))
    ∧ (df_buck .hour exTie = (df_buck .hour exTie).reverse →
        pdfFromRows (df_buck .hour exTie) = pdfFromRows ((df_buck .hour exTie).reverse)
        ∧ csvFromRows (df_buck .hour exTie) ["B / 1", "A / 1"]
          = csvFromRows ((df_buck .hour exTie).reverse) ["B / 1", "A / 1"]) :=
  pipeline_deterministic_up_to_tie_order .hour exTie (df_buck .hour exTie)
    ((df_buck .hour exTie).reverse) (List.Perm.refl _) (List.reverse_perm _)
    ["B / 1", "A / 1"]

/-- C9 counterexample: on `exTie` the two grouped rows share one hour
bucket, and both delivery orders are permutations of the grouped rows, so
two runs over the unchanged data may receive either; line 91's bucket-only
sort preserves each, and the two runs then deliver the rows in different
orders and export different CSV bytes. -/
theorem rerun_order_not_guaranteed :
    deliveredGroups .hour exTie (df_buck .hour exTie)
    ∧ deliveredGroups .hour exTie ((df_buck .hour exTie).reverse)
    ∧ (pdfFromRows (df_buck .hour exTie)).map AggRow.site = ["B", "A"]
    ∧ (pdfFromRows ((df_buck .hour exTie).reverse)).map AggRow.site = ["A", "B"]
    ∧ pdfFromRows (df_buck .hour exTie) ≠ pdfFromRows ((df_buck .hour exTie).reverse)
    ∧ csvFromRows (df_buck .hour exTie) ["B / 1", "A / 1"]
      ≠ csvFromRows ((df_buck .hour exTie).reverse) ["B / 1", "A / 1"] := by
  refine ⟨List.Perm.refl _, List.reverse_perm _, by decide, by decide, by decide, by decide⟩

/-- C3: the KPI record the presentation carries is computed from the full
aggregated frame — mean, max, min of the per-row mean temperatures and the
plain (unweighted) mean of the per-row mean humidities — and is the same
whatever locations are selected for plotting. -/
theorem kpis_before_location_restriction (base_df : List Reading) (c : FilterCriteria)
    (sel₁ sel₂ : List String) (h : appPdf base_df c ≠ []) :
    (runApp base_df c sel₁).map Presentation.kpis = some (kpisOf (appPdf base_df c))
    ∧ (runApp base_df c sel₁).map Presentation.kpis
      = (runApp base_df c sel₂).map Presentation.kpis
    ∧ (kpisOf (appPdf base_df c)).avg_temp = listMean ((appPdf base_df c).map AggRow.avg_temp_c)
    ∧ (kpisOf (appPdf base_df c)).avg_humidity
      = listMean ((appPdf base_df c).map AggRow.avg_humidity)
    ∧ (kpisOf (appPdf base_df c)).max_temp = colMax ((appPdf base_df c).map AggRow.avg_temp_c)
    ∧ (kpisOf (appPdf base_df c)).min_temp = colMin ((appPdf base_df c).map AggRow.avg_temp_c) := by
  have he : (appPdf base_df c).isEmpty = false := by
    rcases hx : appPdf base_df c with _ | ⟨a, rest⟩
    · exact absurd hx h
    · rfl
  unfold runApp
  rw [he]
  exact ⟨rfl, rfl, rfl, rfl, rfl, rfl⟩

theorem kpis_before_location_restriction_witness :
    (runApp exData exCrit ["A / 101"]).map Presentation.kpis = some (kpisOf (appPdf exData exCrit))
    ∧ (runApp exData exCrit ["A / 101"]).map Presentation.kpis
      = (runApp exData exCrit []).map Presentation.kpis
    ∧ (kpisOf (appPdf exData exCrit)).avg_temp
      = listMean ((appPdf exData exCrit).map AggRow.avg_temp_c)
    ∧ (kpisOf (appPdf exData exCrit)).avg_humidity
      = listMean ((appPdf exData exCrit).map AggRow.avg_humidity)
    ∧ (kpisOf (appPdf exData exCrit)).max_temp
      = colMax ((appPdf exData exCrit).map AggRow.avg_temp_c)
    ∧ (kpisOf (appPdf exData exCrit)).min_temp
      = colMin ((appPdf exData exCrit).map AggRow.avg_temp_c) :=
  kpis_before_location_restriction exData exCrit ["A / 101"] [] (by decide)

/-- C5: over a non-empty location-restricted frame whose `(bucket, location)`
keys do not repeat (when they do, no wide table exists at all — see the label
collision theorem), both pivots succeed and deliver tables with one row per
distinct bucket timestamp in ascending order, one column per distinct
selected location, and an empty (`none`) cell — never the value 0 — at every
`(bucket, location)` pair with no matching aggregate row. -/
theorem wide_tables_shape (pdf : List AggRow) (sel_locs : List String)
    (_hne : plotDfOf pdf sel_locs ≠ [])
    (hsel : ∀ l ∈ sel_locs, l ∈ pdf.map AggRow.location)
    (hkeys : (pivotKeys (plotDfOf pdf sel_locs)).Nodup) :
    temp_wide (plotDfOf pdf sel_locs)
      = some (wideOf (plotDfOf pdf sel_locs) AggRow.avg_temp_c)
    ∧ hum_wide (plotDfOf pdf sel_locs)
      = some (wideOf (plotDfOf pdf sel_locs) AggRow.avg_humidity)
    ∧ (pivotIndex (plotDfOf pdf sel_locs)).Nodup
    ∧ List.Sorted (· ≤ ·) (pivotIndex (plotDfOf pdf sel_locs))
    ∧ (∀ b, b ∈ pivotIndex (plotDfOf pdf sel_locs)
        ↔ ∃ a ∈ plotDfOf pdf sel_locs, a.ts_bucket = b)
    ∧ (pivotCols (plotDfOf pdf sel_locs)).Nodup
    ∧ (∀ l, l ∈ pivotCols (plotDfOf pdf sel_locs) ↔ l ∈ sel_locs)
    ∧ (∀ w ∈ wideOf (plotDfOf pdf sel_locs) AggRow.avg_temp_c,
        w.2 = (pivotCols (plotDfOf pdf sel_locs)).map
          fun l => pivotCell (plotDfOf pdf sel_locs) AggRow.avg_temp_c w.1 l)
    ∧ (∀ b l, (¬ ∃ a ∈ plotDfOf pdf sel_locs, a.ts_bucket = b ∧ a.location = l) →
        pivotCell (plotDfOf pdf sel_locs) AggRow.avg_temp_c b l = none
        ∧ pivotCell (plotDfOf pdf sel_locs) AggRow.avg_humidity b l = none) := by
  refine ⟨?_, ?_, ?_, ?_, ?_, ?_, ?_, ?_, ?_⟩
  · unfold temp_wide pivot
    rw [if_pos hkeys]
  · unfold hum_wide pivot
    rw [if_pos hkeys]
  · unfold pivotIndex
    exact (List.perm_insertionSort _ _).symm.nodup (List.nodup_dedup _)
  · unfold pivotIndex
    exact List.sorted_insertionSort _ _
  · intro b
    unfold pivotIndex
    rw [(List.perm_insertionSort _ _).mem_iff, List.mem_dedup, List.mem_map]
  · unfold pivotCols
    exact List.nodup_dedup _
  · intro l
    unfold pivotCols
    rw [List.mem_dedup, List.mem_map]
    constructor
    · rintro ⟨a, haP, rfl⟩
      unfold plotDfOf at haP
      rw [List.mem_filter] at haP
      simpa using haP.2
    · intro hl
      obtain ⟨a, hap, hal⟩ := List.mem_map.mp (hsel l hl)
      refine ⟨a, ?_, hal⟩
      unfold plotDfOf
      rw [List.mem_filter]
      exact ⟨hap, by simp [hal, hl]⟩
  · intro w hw
    unfold wideOf at hw
    rw [List.mem_map] at hw
    obtain ⟨b, hb, rfl⟩ := hw
    rfl
  · intro b l hno
    have hnotpred : ∀ x ∈ plotDfOf pdf sel_locs,
        ¬((x.ts_bucket = b && x.location = l) = true) := by
      intro x hx hcontra
      simp only [Bool.and_eq_true, decide_eq_true_eq] at hcontra
      exact hno ⟨x, hx, hcontra.1, hcontra.2⟩
    have hfind := List.find?_eq_none.mpr hnotpred
    constructor
    · unfold pivotCell
      rw [hfind]
      rfl
    · unfold pivotCell
      rw [hfind]
      rfl

/-- Aggregate rows instantiating Scenario D: bucket 60 has a row for
location "A / 1" but none for location "B / 2". -/
def exWidePdf : List AggRow :=
  [⟨0, "A", "1", 20, 50⟩, ⟨60, "A", "1", 21, 51⟩, ⟨0, "B", "2", 22, 52⟩]

/-- The two locations of `exWidePdf`, both selected. -/
def exWideSel : List String :=
  ["A / 1", "B / 2"]

theorem wide_tables_shape_witness :
    temp_wide (plotDfOf exWidePdf exWideSel)
      = some (wideOf (plotDfOf exWidePdf exWideSel) AggRow.avg_temp_c)
    ∧ hum_wide (plotDfOf exWidePdf exWideSel)
      = some (wideOf (plotDfOf exWidePdf exWideSel) AggRow.avg_humidity)
    ∧ (pivotIndex (plotDfOf exWidePdf exWideSel)).Nodup
    ∧ List.Sorted (· ≤ ·) (pivotIndex (plotDfOf exWidePdf exWideSel))
    ∧ (∀ b, b ∈ pivotIndex (plotDfOf exWidePdf exWideSel)
        ↔ ∃ a ∈ plotDfOf exWidePdf exWideSel, a.ts_bucket = b)
    ∧ (pivotCols (plotDfOf exWidePdf exWideSel)).Nodup
    ∧ (∀ l, l ∈ pivotCols (plotDfOf exWidePdf exWideSel) ↔ l ∈ exWideSel)
    ∧ (∀ w ∈ wideOf (plotDfOf exWidePdf exWideSel) AggRow.avg_temp_c,
        w.2 = (pivotCols (plotDfOf exWidePdf exWideSel)).map
          fun l => pivotCell (plotDfOf exWidePdf exWideSel) AggRow.avg_temp_c w.1 l)
    ∧ (∀ b l, (¬ ∃ a ∈ plotDfOf exWidePdf exWideSel, a.ts_bucket = b ∧ a.location = l) →
        pivotCell (plotDfOf exWidePdf exWideSel) AggRow.avg_temp_c b l = none
        ∧ pivotCell (plotDfOf exWidePdf exWideSel) AggRow.avg_humidity b l = none) :=
  wide_tables_shape exWidePdf exWideSel (by decide) (by decide) (by decide)

/-- Readings whose two distinct (site, room) pairs — ("A / 1", "2") and
("A", "1 / 2") — produce the same location label "A / 1 / 2" in the same
day bucket. -/
def exCollide : List Reading :=
  [⟨10, "A / 1", "2", "s1", 20, 50⟩, ⟨20, "A", "1 / 2", "s2", 30, 60⟩]

/-- C10: when the `(bucket, location)` keys of the restricted frame do not
repeat — in particular when the site/room-to-label map is injective within
each bucket — both pivots succeed; but on `exCollide` two distinct
(site, room) groups in the same bucket share one label, and both pivots
fail (`none`, modelling the pandas `ValueError`) instead of producing a
chartable table. -/
theorem pivot_label_collision :
    (∀ rows : List AggRow, (pivotKeys rows).Nodup →
      (temp_wide rows).isSome = true ∧ (hum_wide rows).isSome = true)
    ∧ (∃ a ∈ df_buck .day exCollide, ∃ b ∈ df_buck .day exCollide,
        (a.site, a.room) ≠ (b.site, b.room) ∧ a.ts_bucket = b.ts_bucket
        ∧ a.location = b.location)
    ∧ temp_wide (df_buck .day exCollide) = none
    ∧ hum_wide (df_buck .day exCollide) = none := by
  refine ⟨?_, ?_, ?_, ?_⟩
  · intro rows h
    unfold temp_wide hum_wide pivot
    rw [if_pos h, if_pos h]
    exact ⟨rfl, rfl⟩
  · decide
  · decide
  · decide
